import Mathlib

/-!
Verification development for the NBA rolling-averages analyzer
(`src/nba/analyzer/averages.py`).

The embedding is a shallow translation of the Python source:

* Python `Dict[str, any]` rows with a fixed set of keys become Lean
  structures with one field per key.  Numeric (`float`/`int`) stat values
  are embedded in an arbitrary `DivisionRing` `α` (instantiated at `ℚ` for
  concrete evaluation and at `ℝ` where the real `normalize` function is
  involved); dates and timestamps are embedded as integers (day numbers),
  and players/seasons as numeric identifiers (Python holds them as
  strings, so `write_averages` treats them as non-numeric values that are
  overwritten, never summed or divided).
* Python `is` comparisons against interned literal strings
  (`'games_played' is key`, `'week_id' is key`, `is 0`) behave as value
  equality in CPython for these identifier-like literals and small ints,
  and are embedded as equality.
* The snapshot dict built by `calculate_moving_average` is a single
  mutable object appended to all three horizon accumulators; the embedding
  models this sharing with an explicit heap (`EngineState.heap`): the
  accumulator lists store heap indices, and the repeated
  `stat['games_played'] = ...` assignments are heap updates visible
  through every accumulator that holds the index.
* `int((game_date - period_date).days / 7)` is float true division
  followed by `int()` truncation toward zero, embedded as `Int.tdiv`
  (exact for the magnitudes involved); Python `%` on a positive divisor is
  embedded as `Int.emod`.
* `datetime.now()` is an environment input, passed as an explicit `now`
  parameter; the external depot write is modelled by returning the row
  that would be persisted.
-/

namespace NBA

/-- The `AveragePeriods` enum: the three rolling horizons. -/
inductive Period : Type
  | one_week
  | three_week
  | nine_week
deriving DecidableEq, Repr

/-- Enum value of a horizon, in weeks (`AveragePeriods.ONE_WEEK = 1`, ...). -/
def Period.value : Period → ℤ
  | .one_week => 1
  | .three_week => 3
  | .nine_week => 9

/-- The numeric stat keys that `calculate_moving_average` stores in a
snapshot dict (source lines 125-144).  These are exactly the values that
`write_averages` sums and divides (the `isinstance(value, float/int)`
branches). -/
structure NumStats (α : Type) where
  minutes_played : α
  total_rebounds : α
  field_goals : α
  field_goal_attempts : α
  free_throw_attempts : α
  free_throws : α
  three_points : α
  three_point_attempts : α
  offensive_rebounds : α
  defensive_rebounds : α
  assists : α
  steels : α
  blocks : α
  turn_overs : α
  personal_fouls : α
  points_scored : α
  plus_minus : α
  game_rating_score : α
deriving DecidableEq, Repr

/-- A snapshot dict (`stat` in `calculate_moving_average`): the numeric
stats plus the identification keys and the `games_played` stamp. -/
structure Stat (α : Type) extends NumStats α where
  player : ℕ
  game_date : ℤ
  season : ℕ
  week_id : ℤ
  games_played : ℕ
deriving DecidableEq, Repr

/-- The row persisted by `write_averages` through `_insert_query`
(one `AverageSnapshot`). -/
structure Row (α : Type) extends NumStats α where
  player : ℕ
  season : ℕ
  week_id : ℤ
  game_date : ℤ
  games_played : ℕ
  overall_efficiency : α
  center_player_stats : α
  guard_player_stats : α
  forward_player_stats : α
  minutes_per_game : α
  created_timestamp : ℤ
deriving DecidableEq, Repr

/-- A raw `game_stats` row as consumed by `calculate_moving_average`.
`minutes_played` arrives as a `time` value (hours, minutes, seconds). -/
structure RawRow (α : Type) where
  player : ℕ
  game_date : ℤ
  season : ℕ
  minutes_h : ℕ
  minutes_m : ℕ
  minutes_s : ℕ
  field_goals : α
  field_goal_attempts : α
  free_throw_attempts : α
  free_throws : α
  three_points : α
  three_point_attempts : α
  offensive_rebounds : α
  defensive_rebounds : α
  assists : α
  steels : α
  blocks : α
  turn_overs : α
  personal_fouls : α
  points_scored : α
  plus_minus : α
  game_rating_score : α
deriving DecidableEq, Repr

variable {α : Type} [DivisionRing α]

/-- Pointwise sum of two numeric-stat dicts: the
`avg[key] = avg[key] + value if key in avg else value` branch of
`write_averages` applied to every numeric key of one stored snapshot. -/
def addNums (a b : NumStats α) : NumStats α where
  minutes_played := a.minutes_played + b.minutes_played
  total_rebounds := a.total_rebounds + b.total_rebounds
  field_goals := a.field_goals + b.field_goals
  field_goal_attempts := a.field_goal_attempts + b.field_goal_attempts
  free_throw_attempts := a.free_throw_attempts + b.free_throw_attempts
  free_throws := a.free_throws + b.free_throws
  three_points := a.three_points + b.three_points
  three_point_attempts := a.three_point_attempts + b.three_point_attempts
  offensive_rebounds := a.offensive_rebounds + b.offensive_rebounds
  defensive_rebounds := a.defensive_rebounds + b.defensive_rebounds
  assists := a.assists + b.assists
  steels := a.steels + b.steels
  blocks := a.blocks + b.blocks
  turn_overs := a.turn_overs + b.turn_overs
  personal_fouls := a.personal_fouls + b.personal_fouls
  points_scored := a.points_scored + b.points_scored
  plus_minus := a.plus_minus + b.plus_minus
  game_rating_score := a.game_rating_score + b.game_rating_score

/-- Pointwise division of every numeric value by `max_games`: the inner
`for key in avg.keys(): ... avg[key] = value / max_games` loop of
`write_averages` (which skips `week_id` and the non-numeric keys).  In the
source this loop is nested inside the loop over `player_totals`, so it
runs once per stored snapshot. -/
def divNums (a : NumStats α) (max_games : ℕ) : NumStats α where
  minutes_played := a.minutes_played / (max_games : α)
  total_rebounds := a.total_rebounds / (max_games : α)
  field_goals := a.field_goals / (max_games : α)
  field_goal_attempts := a.field_goal_attempts / (max_games : α)
  free_throw_attempts := a.free_throw_attempts / (max_games : α)
  free_throws := a.free_throws / (max_games : α)
  three_points := a.three_points / (max_games : α)
  three_point_attempts := a.three_point_attempts / (max_games : α)
  offensive_rebounds := a.offensive_rebounds / (max_games : α)
  defensive_rebounds := a.defensive_rebounds / (max_games : α)
  assists := a.assists / (max_games : α)
  steels := a.steels / (max_games : α)
  blocks := a.blocks / (max_games : α)
  turn_overs := a.turn_overs / (max_games : α)
  personal_fouls := a.personal_fouls / (max_games : α)
  points_scored := a.points_scored / (max_games : α)
  plus_minus := a.plus_minus / (max_games : α)
  game_rating_score := a.game_rating_score / (max_games : α)

/-- Default snapshot used as the out-of-range fallback for heap reads
(indices are always in range by construction). -/
def dfltStat : Stat α where
  minutes_played := 0
  total_rebounds := 0
  field_goals := 0
  field_goal_attempts := 0
  free_throw_attempts := 0
  free_throws := 0
  three_points := 0
  three_point_attempts := 0
  offensive_rebounds := 0
  defensive_rebounds := 0
  assists := 0
  steels := 0
  blocks := 0
  turn_overs := 0
  personal_fouls := 0
  points_scored := 0
  plus_minus := 0
  game_rating_score := 0
  player := 0
  game_date := 0
  season := 0
  week_id := 0
  games_played := 0

/-- Snapshot construction of `calculate_moving_average` (source lines
120-144): `minutes_played` is converted to minutes
(`t.hour * 60 + t.minute + t.second / 60`) without normalization, and
every other numeric field is passed through `nrm` exactly once
(`total_rebounds` is `nrm` of the rebounds sum).  `nrm` stands for
`DynamicAveragesCalculator.normalize`; `games_played` is initialized to 0
and is stamped by `check_games_played` before any use.  `week` is the
`week` argument of `calculate_moving_average`. -/
def build_stat (nrm : α → α) (week : ℤ) (row : RawRow α) : Stat α where
  player := row.player
  game_date := row.game_date
  season := row.season
  week_id := week
  games_played := 0
  minutes_played := (row.minutes_h : α) * 60 + (row.minutes_m : α) + (row.minutes_s : α) / 60
  total_rebounds := nrm (row.offensive_rebounds + row.defensive_rebounds)
  field_goals := nrm row.field_goals
  field_goal_attempts := nrm row.field_goal_attempts
  free_throw_attempts := nrm row.free_throw_attempts
  free_throws := nrm row.free_throws
  three_points := nrm row.three_points
  three_point_attempts := nrm row.three_point_attempts
  offensive_rebounds := nrm row.offensive_rebounds
  defensive_rebounds := nrm row.defensive_rebounds
  assists := nrm row.assists
  steels := nrm row.steels
  blocks := nrm row.blocks
  turn_overs := nrm row.turn_overs
  personal_fouls := nrm row.personal_fouls
  points_scored := nrm row.points_scored
  plus_minus := nrm row.plus_minus
  game_rating_score := nrm row.game_rating_score

/-- The `normalize` static method: `math.asinh(value / 2) / math.log(10)`. -/
noncomputable def normalize (value : ℝ) : ℝ :=
  Real.arsinh (value / 2) / Real.log 10

/-- The `calc_overall` static method.  Its body is one chained Python
conditional expression; conditional expressions are right-associative, so
the whole chain evaluates to `row.get('points_scored')` whenever that key
is present and non-`None` — which is always the case at the call site in
`write_averages` (`points_scored` is among the averaged numeric keys).
`minutes_per_game` is looked up with a default of 1 when the key is
absent or `None`; at the call site it has not been set yet, so the
divisor is 1. -/
def calc_overall (points_scored : α) (minutes_per_game : Option α) : α :=
  points_scored * (1 / minutes_per_game.getD 1)

/-- The `calc_center_stats` static method (source lines 324-326):
`80*(def_reb + off_reb) + 45*blocks + 65*field_goals + 45*games_played`.
At the call site `row` is the `avg` dict, whose `games_played` has just
been set to `max_games`. -/
def calc_center_stats (n : NumStats α) (games_played : ℕ) : α :=
  80 * (n.defensive_rebounds + n.offensive_rebounds) + 45 * n.blocks +
    65 * n.field_goals + 45 * (games_played : α)

/-- The `calc_guard_stats` static method (source lines 329-331). -/
def calc_guard_stats (n : NumStats α) (games_played : ℕ) : α :=
  85 * (n.assists + n.steels) + n.three_points * n.points_scored -
    n.turn_overs + 25 * (games_played : α)

/-- The `calc_forward_stats` static method (source lines 334-336). -/
def calc_forward_stats (n : NumStats α) (games_played : ℕ) : α :=
  n.field_goals * n.points_scored + 40 * n.three_point_attempts -
    n.three_points + 60 * (games_played : α)

/-- Python `int((game_date - period_date).days / 7)` from
`check_player_totals` (line 197): float true division truncated toward
zero by `int()`, i.e. `Int.tdiv`. -/
def week_id_of (game_date period_date : ℤ) : ℤ :=
  Int.tdiv (game_date - period_date) 7

/-- The flush guard of `check_player_totals` (line 199):
`week_id > 0 and int(week_id % period.value) is 0`.  CPython `is 0` on a
small int behaves as equality; Python `%` with positive divisor is
`Int.emod`. -/
def flush_condition (period_date : ℤ) (per : Period) (game_date : ℤ) : Bool :=
  decide (0 < week_id_of game_date period_date) &&
    decide (Int.emod (week_id_of game_date period_date) per.value = 0)

/-- Contents of the `avg` dict while `write_averages` is folding over the
stored snapshots: the numeric keys plus the overwritten `week_id`,
`player` and `season` keys (the latter two are strings in the source and
are therefore overwritten, never summed or divided). -/
structure AvgAcc (α : Type) where
  nums : NumStats α
  week_id : ℤ
  player : ℕ
  season : ℕ
deriving DecidableEq, Repr

/-- Loop state of the `for total in player_totals` loop of
`write_averages`: the running `max_games`, the running `game_date`
maximum, and the `avg` dict (`none` while still empty). -/
structure WState (α : Type) where
  max_games : ℕ
  game_date : ℤ
  acc : Option (AvgAcc α)
deriving DecidableEq, Repr

/-- One iteration of the `for total in player_totals` loop of
`write_averages` (source lines 214-233): update `max_games` from
`games_played`, update the running `game_date` maximum, add every numeric
value into `avg` (initializing absent keys), overwrite `week_id`,
`player` and `season`, and then — because the division loop is nested
inside this loop in the source — divide every numeric value of `avg` by
the current `max_games`. -/
def wa_step (s : WState α) (t : Stat α) : WState α :=
  let max_games := max s.max_games t.games_played
  let game_date := max s.game_date t.game_date
  let summed : NumStats α :=
    match s.acc with
    | none => t.toNumStats
    | some a => addNums a.nums t.toNumStats
  { max_games := max_games
    game_date := game_date
    acc := some ⟨divNums summed max_games, t.week_id, t.player, t.season⟩ }

/-- The `write_averages` static method (source lines 207-252).  `now`
stands for `datetime.now()`; `game_date` is the `game_date` argument.
Returns the row handed to the depot (or `none` when `avg` stayed empty,
i.e. `player_totals` was empty) together with the `player_totals` list
after the conditional `pop(0)` of the oldest entry. -/
def write_averages (nrm : α → α) (now : ℤ) (game_date : ℤ)
    (player_totals : List (Stat α)) : Option (Row α) × List (Stat α) :=
  let s := player_totals.foldl wa_step ⟨0, game_date, none⟩
  match s.acc with
  | none => (none, player_totals)
  | some a =>
    let gp := s.max_games
    let row : Row α :=
      { toNumStats := a.nums
        player := a.player
        season := a.season
        week_id := a.week_id
        game_date := s.game_date
        games_played := gp
        overall_efficiency := nrm (calc_overall a.nums.points_scored none)
        center_player_stats := nrm (calc_center_stats a.nums gp)
        guard_player_stats := nrm (calc_guard_stats a.nums gp)
        forward_player_stats := nrm (calc_forward_stats a.nums gp)
        minutes_per_game := a.nums.minutes_played / (gp : α)
        created_timestamp := now }
    (some row, player_totals.drop 1)

/-- Lookup in an association list (a Python dict keyed by `(period, player)`
or similar). -/
def alookup {κ β : Type} [DecidableEq κ] : List (κ × β) → κ → Option β
  | [], _ => none
  | (k, v) :: t, k0 => if k = k0 then some v else alookup t k0

/-- Update-or-insert in an association list (`d[k] = v`). -/
def aset {κ β : Type} [DecidableEq κ] : List (κ × β) → κ → β → List (κ × β)
  | [], k0, v0 => [(k0, v0)]
  | (k, v) :: t, k0, v0 => if k = k0 then (k0, v0) :: t else (k, v) :: aset t k0 v0

/-- A flush decision observed while processing one record for one horizon:
whether the guard held (`invoked` means `write_averages` was called), the
size of the accumulator at that moment, and whether a row was persisted
(`saved`, the return value of `check_player_totals`). -/
structure FlushEvent where
  period : Period
  player : ℕ
  game_date : ℤ
  week_id : ℤ
  invoked : Bool
  accSize : ℕ
  saved : Bool
deriving DecidableEq, Repr

/-- Observable output of a run: one `FlushEvent` per (record, horizon)
pair, and the rows handed to the depot in order. -/
structure Trace (α : Type) where
  events : List FlushEvent
  rows : List (Row α)
deriving DecidableEq, Repr

/-- The mutable state threaded through `calc_for_season`: the heap of
snapshot dicts (the accumulators store heap indices, reflecting that the
same dict object is shared by all three horizons), the `cache`
(`Dict[AveragePeriods, Dict[str, List[...]]]`, flattened to a
`(period, player)`-keyed association list), the `games_played` counters,
and the `LastSavedDatesTrackerByPeriod` dates and booleans. -/
structure EngineState (α : Type) where
  heap : List (Stat α)
  accs : List ((Period × ℕ) × List ℕ)
  counters : List ((Period × ℕ) × ℕ)
  refOne : ℤ
  refThree : ℤ
  refNine : ℤ
  flagOne : Bool
  flagThree : Bool
  flagNine : Bool
deriving DecidableEq, Repr

/-- The tracker date for a horizon (`LastSavedDatesTrackerByPeriod.get`). -/
def EngineState.refDate (st : EngineState α) : Period → ℤ
  | .one_week => st.refOne
  | .three_week => st.refThree
  | .nine_week => st.refNine

/-- Set the tracker boolean for a horizon
(`saved_dates_tracker.one_week = True` etc. in `calculate_moving_average`). -/
def EngineState.setFlag (st : EngineState α) : Period → EngineState α
  | .one_week => { st with flagOne := true }
  | .three_week => { st with flagThree := true }
  | .nine_week => { st with flagNine := true }

/-- The `check_games_played` static method (source lines 177-183):
initialize the per-(horizon, player) counter to 0 if absent, increment it,
and return the post-increment value. -/
def check_games_played (counters : List ((Period × ℕ) × ℕ)) (per : Period)
    (player : ℕ) : ℕ × List ((Period × ℕ) × ℕ) :=
  let gp := (alookup counters (per, player)).getD 0 + 1
  (gp, aset counters (per, player) gp)

/-- The `reset_games_played` static method (source lines 172-174): clear
every player's counter for one horizon (`gp.clear()`). -/
def reset_games_played (counters : List ((Period × ℕ) × ℕ)) (per : Period) :
    List ((Period × ℕ) × ℕ) :=
  counters.filter (fun e => decide (e.1.1 ≠ per))

/-- The `check_player_totals` static method (source lines 186-205): fetch
(or create) the player's accumulator for the horizon, compute `week_id`
from the tracker date, call `write_averages` when the flush guard holds,
and append the new snapshot (its heap index) afterwards in every case.
The `pop(0)` performed inside `write_averages` mutates the same list
object held by the cache; the embedding mirrors it on the index list
(`write_averages` pops exactly when it returns a row).  Returns the
`saved` boolean, the updated cache, the row written (if any), and the
`FlushEvent` observation. -/
def check_player_totals (nrm : α → α) (now : ℤ) (heap : List (Stat α))
    (accs : List ((Period × ℕ) × List ℕ)) (period_date : ℤ) (per : Period)
    (idx : ℕ) (stat : Stat α) :
    Bool × List ((Period × ℕ) × List ℕ) × Option (Row α) × FlushEvent :=
  let totals := (alookup accs (per, stat.player)).getD []
  let w := week_id_of stat.game_date period_date
  let inv := flush_condition period_date per stat.game_date
  let resolved := totals.map (fun i => heap.getD i dfltStat)
  let rowOpt := if inv then (write_averages nrm now stat.game_date resolved).1 else none
  let totals2 := (if rowOpt.isSome then totals.drop 1 else totals) ++ [idx]
  (rowOpt.isSome, aset accs (per, stat.player) totals2, rowOpt,
    ⟨per, stat.player, stat.game_date, w, inv, totals.length, rowOpt.isSome⟩)

/-- Processing of one horizon for one record inside
`calculate_moving_average` (one of the three blocks at source lines
146-162): stamp `games_played` from `check_games_played` onto the shared
snapshot (a heap update, visible through every accumulator holding the
index), run `check_player_totals`, and set the tracker boolean when a row
was saved. -/
def process_horizon (nrm : α → α) (now : ℤ) (per : Period) (idx : ℕ)
    (st : EngineState α) (tr : Trace α) : EngineState α × Trace α :=
  let stat0 := st.heap.getD idx dfltStat
  let cg := check_games_played st.counters per stat0.player
  let stat := { stat0 with games_played := cg.1 }
  let heap := st.heap.set idx stat
  let res := check_player_totals nrm now heap st.accs (st.refDate per) per idx stat
  let st1 : EngineState α :=
    { st with heap := heap, counters := cg.2, accs := res.2.1 }
  let st2 := if res.1 then st1.setFlag per else st1
  (st2, ⟨tr.events ++ [res.2.2.2], tr.rows ++ (res.2.2.1).toList⟩)

/-- Processing of one raw record inside the `for row in rows` loop of
`calculate_moving_average` (source lines 119-162): build the snapshot,
allocate it on the heap (one shared dict object), and run the three
horizons in order. -/
def process_record (nrm : α → α) (now : ℤ) (week : ℤ)
    (acc : EngineState α × Trace α) (row : RawRow α) : EngineState α × Trace α :=
  let st := acc.1
  let idx := st.heap.length
  let st := { st with heap := st.heap ++ [build_stat nrm week row] }
  let r1 := process_horizon nrm now .one_week idx st acc.2
  let r2 := process_horizon nrm now .three_week idx r1.1 r1.2
  process_horizon nrm now .nine_week idx r2.1 r2.2

/-- The `calculate_moving_average` static method (source lines 114-169):
process the day's records, then reset the `games_played` counters of
every horizon whose tracker boolean is set. -/
def calculate_moving_average (nrm : α → α) (now : ℤ) (rows : List (RawRow α))
    (week : ℤ) (st : EngineState α) (tr : Trace α) : EngineState α × Trace α :=
  let r := rows.foldl (process_record nrm now week) (st, tr)
  let st := r.1
  let c1 := if st.flagOne then reset_games_played st.counters .one_week else st.counters
  let c2 := if st.flagThree then reset_games_played c1 .three_week else c1
  let c3 := if st.flagNine then reset_games_played c2 .nine_week else c2
  ({ st with counters := c3 }, r.2)

/-- One iteration of the `while current_date <= dates[1]` loop of
`AnalyticsController.calc_for_season` (source lines 432-444): load the
day's rows (`sched`), compute the `week` index relative to season start,
run the engine, advance to the next day, and for every horizon whose
tracker boolean is set, advance its tracker date to the new current day
and clear the boolean. -/
def controller_day (nrm : α → α) (now : ℤ) (start : ℤ)
    (sched : ℤ → List (RawRow α)) (acc : EngineState α × Trace α) (d : ℕ) :
    EngineState α × Trace α :=
  let current : ℤ := start + (d : ℤ)
  let week := week_id_of current start + 1
  let r := calculate_moving_average nrm now (sched current) week acc.1 acc.2
  let st := r.1
  let next := current + 1
  let st := if st.flagOne then { st with refOne := next, flagOne := false } else st
  let st := if st.flagThree then { st with refThree := next, flagThree := false } else st
  let st := if st.flagNine then { st with refNine := next, flagNine := false } else st
  (st, r.2)

/-- Initial engine state of `calc_for_season`: empty cache and counters,
all tracker dates at the season start, all tracker booleans false. -/
def init_state (start : ℤ) : EngineState α :=
  ⟨[], [], [], start, start, start, false, false, false⟩

/-- The day loop of `AnalyticsController.calc_for_season` (source lines
418-444), for a season starting at day `start` and spanning `numDays`
calendar days (`dates[1] = start + numDays - 1`).  `sched` plays the role
of `loader.load_by_dates(current_date, current_date)`. -/
def calc_for_season (nrm : α → α) (now : ℤ) (start : ℤ) (numDays : ℕ)
    (sched : ℤ → List (RawRow α)) : EngineState α × Trace α :=
  (List.range numDays).foldl (controller_day nrm now start sched)
    (init_state start, ⟨[], []⟩)

/-- One iteration of the final loop of `calc_for_season` (source lines
446-448): `write_averages(self.depot, totals[0]['game_date'], headers,
period, totals)`.  The unconditional `totals[0]` subscript raises
`IndexError` on an empty list, modelled as `none`; otherwise the result is
the row handed to the depot (if any). -/
def force_flush_entry (nrm : α → α) (now : ℤ) (heap : List (Stat α))
    (e : (Period × ℕ) × List ℕ) : Option (Option (Row α)) :=
  match e.2 with
  | [] => none
  | i :: _ =>
    some (write_averages nrm now ((heap.getD i dfltStat).game_date)
      (e.2.map (fun j => heap.getD j dfltStat))).1

/-- The final loop of `calc_for_season` over every cache entry, stopping
with `none` at the first `IndexError`. -/
def force_flush_list (nrm : α → α) (now : ℤ) (heap : List (Stat α)) :
    List ((Period × ℕ) × List ℕ) → Option (List (Row α))
  | [] => some []
  | e :: t =>
    match force_flush_entry nrm now heap e, force_flush_list nrm now heap t with
    | some (some r), some rs => some (r :: rs)
    | some none, some rs => some rs
    | _, _ => none

/-- The end-of-season force-flush (source lines 446-448): iterate over
every `(period, player)` cache entry and run `write_averages` on its
accumulated snapshots.  `none` models the run aborting with `IndexError`. -/
def force_flush (nrm : α → α) (now : ℤ) (st : EngineState α) :
    Option (List (Row α)) :=
  force_flush_list nrm now st.heap st.accs

/-- Erase the `created_timestamp` column of a persisted row (used to state
determinism of `write_averages` up to the wall clock). -/
def eraseTimestamp (r : Row α) : Row α :=
  { r with created_timestamp := 0 }

/-- Predicate: every accumulator list held by the cache is non-empty. -/
def accs_nonempty (accs : List ((Period × ℕ) × List ℕ)) : Prop :=
  ∀ e ∈ accs, e.2 ≠ []

/-! Concrete inputs used by witnesses and counterexamples. -/

/-- A numeric-stat dict with every value equal to 1. -/
def oneNums : NumStats ℚ := ⟨1, 1, 1, 1, 1, 1, 1, 1, 1, 1, 1, 1, 1, 1, 1, 1, 1, 1⟩

/-- A stored snapshot with every numeric value 1 and a given
`games_played` stamp (the stamps of identical raw records are the
successive counter values 1, 2, 3, ...). -/
def sampleStat (gp : ℕ) : Stat ℚ :=
  { toNumStats := oneNums, player := 1, game_date := 0, season := 0, week_id := 1,
    games_played := gp }

/-- A raw box-score row for player `p` on day `d`. -/
def mkRow (p : ℕ) (d : ℤ) : RawRow ℚ :=
  { player := p, game_date := d, season := 0, minutes_h := 0, minutes_m := 30, minutes_s := 0,
    field_goals := 2, field_goal_attempts := 5, free_throw_attempts := 2, free_throws := 1,
    three_points := 1, three_point_attempts := 3, offensive_rebounds := 2, defensive_rebounds := 3,
    assists := 4, steels := 1, blocks := 1, turn_overs := 2, personal_fouls := 3,
    points_scored := 10, plus_minus := 5, game_rating_score := 7 }

/-- Season schedule with one game for player 1 on days 0, 7 and 8: day 7
triggers a 1-week flush (which resets the 1-week counters), so on day 8 the
1-week counter yields 1 while the nine-week counter yields 3, and both are
stamped in turn onto the single shared snapshot dict of the day-8 record. -/
def aliasing_sched : ℤ → List (RawRow ℚ) := fun d =>
  if d = 0 ∨ d = 7 ∨ d = 8 then [mkRow 1 d] else []

/-- Final engine state of the 9-day season over `aliasing_sched`. -/
def aliasing_state : EngineState ℚ := (calc_for_season id 0 0 9 aliasing_sched).1

/-- Season schedule whose only game (player 1) is on day 7, one full week
after the season start: the first record already satisfies the flush guard
while the player's accumulator is still empty. -/
def late_first_game_sched : ℤ → List (RawRow ℚ) := fun d =>
  if d = 7 then [mkRow 1 d] else []

/-- Trace of the 8-day season over `late_first_game_sched`. -/
def late_first_game_trace : Trace ℚ := (calc_for_season id 0 0 8 late_first_game_sched).2

/-- Three-day season with one game per day for player 1: too short for any
horizon's week boundary to fire. -/
def short_season_sched : ℤ → List (RawRow ℚ) := fun d =>
  if d = 0 ∨ d = 1 ∨ d = 2 then [mkRow 1 d] else []

/-- Run of the three-day season over `short_season_sched`. -/
def short_season_run : EngineState ℚ × Trace ℚ := calc_for_season id 0 0 3 short_season_sched

/-- Season with games for player 1 on days 0 and 7 only: the day-7 1-week
flush evicts the player's only previously stored snapshot (day 0), and the
player has no games after day 7. -/
def eviction_sched : ℤ → List (RawRow ℚ) := fun d =>
  if d = 0 ∨ d = 7 then [mkRow 1 d] else []

/-- Run of the 8-day season over `eviction_sched`. -/
def eviction_run : EngineState ℚ × Trace ℚ := calc_for_season id 0 0 8 eviction_sched

/-- Numeric-stat dict agreeing with `oneNums` on everything except
`minutes_played`. -/
def minutesVariant : NumStats ℚ := { oneNums with minutes_played := 100 }

/-- Raw row whose `minutes_played` time is exactly one hour and whose
numeric stats are all zero. -/
def hourRow : RawRow ℝ :=
  { player := 1, game_date := 0, season := 0, minutes_h := 1, minutes_m := 0, minutes_s := 0,
    field_goals := 0, field_goal_attempts := 0, free_throw_attempts := 0, free_throws := 0,
    three_points := 0, three_point_attempts := 0, offensive_rebounds := 0,
    defensive_rebounds := 0, assists := 0, steels := 0, blocks := 0, turn_overs := 0,
    personal_fouls := 0, points_scored := 0, plus_minus := 0, game_rating_score := 0 }

/-! Helper lemmas about the association-list cache and `write_averages`. -/

theorem alookup_aset {κ β : Type} [DecidableEq κ] (l : List (κ × β)) (k : κ) (v : β) :
    alookup (aset l k v) k = some v := by
  induction l with
  | nil => simp [aset, alookup]
  | cons e t ih =>
    obtain ⟨k1, v1⟩ := e
    by_cases h : k1 = k
    · simp [aset, h, alookup]
    · simp [aset, h, alookup, ih]

theorem mem_aset {κ β : Type} [DecidableEq κ] (l : List (κ × β)) (k : κ) (v : β) (x : κ × β)
    (hx : x ∈ aset l k v) : x = (k, v) ∨ x ∈ l := by
  induction l with
  | nil =>
    simp only [aset] at hx
    exact Or.inl (by simpa using hx)
  | cons e t ih =>
    obtain ⟨k1, v1⟩ := e
    by_cases h : k1 = k
    · simp only [aset, h, if_pos rfl] at hx
      rcases List.mem_cons.mp hx with h1 | h1
      · exact Or.inl h1
      · exact Or.inr (List.mem_cons_of_mem _ h1)
    · simp only [aset, if_neg h] at hx
      rcases List.mem_cons.mp hx with h1 | h1
      · exact Or.inr (h1 ▸ List.mem_cons_self _ _)
      · rcases ih h1 with h2 | h2
        · exact Or.inl h2
        · exact Or.inr (List.mem_cons_of_mem _ h2)

theorem wa_step_acc_isSome (s : WState α) (t : Stat α) : ((wa_step s t).acc).isSome := by
  simp [wa_step]

theorem foldl_wa_acc_isSome (ts : List (Stat α)) (s : WState α) (h : s.acc.isSome) :
    ((ts.foldl wa_step s).acc).isSome := by
  induction ts generalizing s with
  | nil => simpa using h
  | cons t ts ih => exact ih _ (wa_step_acc_isSome _ _)

theorem write_averages_fst_isSome (nrm : α → α) (now gd : ℤ) (totals : List (Stat α))
    (h : totals ≠ []) : ((write_averages nrm now gd totals).1).isSome := by
  obtain ⟨t, ts, rfl⟩ := List.exists_cons_of_ne_nil h
  have hs : ((List.foldl wa_step ⟨0, gd, none⟩ (t :: ts)).acc).isSome := by
    rw [List.foldl_cons]
    exact foldl_wa_acc_isSome _ _ (wa_step_acc_isSome _ _)
  simp only [write_averages]
  split
  · next heq => rw [heq] at hs; simp at hs
  · simp

theorem write_averages_fst_isSome_eq (nrm : α → α) (now gd : ℤ) (totals : List (Stat α)) :
    ((write_averages nrm now gd totals).1).isSome = !totals.isEmpty := by
  cases totals with
  | nil => rfl
  | cons t ts =>
    simp only [List.isEmpty_cons, Bool.not_false]
    exact write_averages_fst_isSome nrm now gd (t :: ts) (by simp)

theorem cpt_accs_nonempty (nrm : α → α) (now : ℤ) (heap : List (Stat α))
    (accs : List ((Period × ℕ) × List ℕ)) (pd : ℤ) (per : Period) (idx : ℕ) (stat : Stat α)
    (h : accs_nonempty accs) :
    accs_nonempty (check_player_totals nrm now heap accs pd per idx stat).2.1 := by
  intro x hx
  simp only [check_player_totals] at hx
  rcases mem_aset _ _ _ _ hx with rfl | hx
  · simp
  · exact h x hx

theorem setFlag_accs {β : Type} (st : EngineState β) (per : Period) :
    (st.setFlag per).accs = st.accs := by
  cases per <;> rfl

theorem ph_accs_nonempty (nrm : α → α) (now : ℤ) (per : Period) (idx : ℕ)
    (st : EngineState α) (tr : Trace α) (h : accs_nonempty st.accs) :
    accs_nonempty ((process_horizon nrm now per idx st tr).1).accs := by
  simp only [process_horizon]
  split
  · rw [setFlag_accs]
    exact cpt_accs_nonempty _ _ _ _ _ _ _ _ h
  · exact cpt_accs_nonempty _ _ _ _ _ _ _ _ h

theorem pr_accs_nonempty (nrm : α → α) (now week : ℤ) (acc : EngineState α × Trace α)
    (row : RawRow α) (h : accs_nonempty acc.1.accs) :
    accs_nonempty ((process_record nrm now week acc row).1).accs := by
  simp only [process_record]
  exact ph_accs_nonempty _ _ _ _ _ _
    (ph_accs_nonempty _ _ _ _ _ _ (ph_accs_nonempty _ _ _ _ _ _ h))

theorem foldl_preserves {σ β : Type _} (P : σ → Prop) (f : σ → β → σ)
    (hstep : ∀ s b, P s → P (f s b)) (l : List β) (s : σ) (hs : P s) : P (l.foldl f s) := by
  induction l generalizing s with
  | nil => exact hs
  | cons b t ih => exact ih _ (hstep _ _ hs)

theorem cma_accs_nonempty (nrm : α → α) (now : ℤ) (rows : List (RawRow α)) (week : ℤ)
    (st : EngineState α) (tr : Trace α) (h : accs_nonempty st.accs) :
    accs_nonempty ((calculate_moving_average nrm now rows week st tr).1).accs := by
  simp only [calculate_moving_average]
  exact foldl_preserves (fun x => accs_nonempty x.1.accs) _
    (fun s b hs => pr_accs_nonempty _ _ _ _ _ hs) rows (st, tr) h

theorem cd_accs_nonempty (nrm : α → α) (now start : ℤ) (sched : ℤ → List (RawRow α))
    (acc : EngineState α × Trace α) (d : ℕ) (h : accs_nonempty acc.1.accs) :
    accs_nonempty ((controller_day nrm now start sched acc d).1).accs := by
  simp only [controller_day]
  split <;> split <;> split <;>
    exact cma_accs_nonempty _ _ _ _ _ _ h

theorem season_accs_nonempty (nrm : α → α) (now start : ℤ) (numDays : ℕ)
    (sched : ℤ → List (RawRow α)) :
    accs_nonempty ((calc_for_season nrm now start numDays sched).1).accs := by
  simp only [calc_for_season]
  exact foldl_preserves (fun (x : EngineState α × Trace α) => accs_nonempty x.1.accs)
    (controller_day nrm now start sched) (fun s b hs => cd_accs_nonempty _ _ _ _ _ _ hs)
    (List.range numDays) (init_state start, ⟨[], []⟩)
    (by intro x hx; simp [init_state] at hx)

theorem force_flush_list_length (nrm : α → α) (now : ℤ) (heap : List (Stat α))
    (l : List ((Period × ℕ) × List ℕ)) (h : ∀ e ∈ l, e.2 ≠ []) :
    ∃ rows, force_flush_list nrm now heap l = some rows ∧ rows.length = l.length := by
  induction l with
  | nil => exact ⟨[], rfl, rfl⟩
  | cons e t ih =>
    obtain ⟨key, totals⟩ := e
    obtain ⟨rows, hr, hlen⟩ := ih (fun x hx => h x (List.mem_cons_of_mem _ hx))
    have he : totals ≠ [] := h (key, totals) (List.mem_cons_self _ _)
    obtain ⟨i, is, rfl⟩ := List.exists_cons_of_ne_nil he
    have hws := write_averages_fst_isSome nrm now ((heap.getD i dfltStat).game_date)
      ((i :: is).map (fun j => heap.getD j dfltStat)) (by simp)
    obtain ⟨r, hrr⟩ := Option.isSome_iff_exists.mp hws
    refine ⟨r :: rows, ?_, by simp [hlen]⟩
    simp only [force_flush_list, force_flush_entry]
    rw [hrr, hr]

/-! Claim theorems. -/

/-- C1 (code evaluation at the failing input): the claim states that each
persisted numeric value equals the arithmetic mean of the stored
snapshots' values with divisor the maximum stored `games_played`, so that
three identical stored snapshots (all numeric values 1, `games_played`
stamps 1, 2, 3) would persist `(1 + 1 + 1) / 3 = 1`.  Because the source
nests the division loop inside the accumulation loop, `write_averages`
instead persists `points_scored = 2/3`: the code does not compute an
arithmetic mean. -/
theorem write_averages_three_identical_not_mean :
    ((write_averages (α := ℚ) id 0 0 [sampleStat 1, sampleStat 2, sampleStat 3]).1.map
      (fun r => r.points_scored)) = some (2 / 3) ∧
    ((sampleStat 1).points_scored + (sampleStat 2).points_scored +
        (sampleStat 3).points_scored) / 3 = 1 ∧
    (2 / 3 : ℚ) ≠ 1 := by
  refine ⟨?_, by norm_num [sampleStat, oneNums], by norm_num⟩
  norm_num [write_averages, wa_step, addNums, divNums, sampleStat, oneNums]

set_option maxRecDepth 100000 in
/-- C2 (code evaluation at the failing input): the claim states that the
snapshot stored in each horizon's accumulator carries that horizon's own
post-increment counter.  In the 9-day run over `aliasing_sched`, the day-8
record is stamped 1 by the 1-week counter (heap index 2, the last entry of
the 1-week accumulator `[1, 2]`), but because all three horizons share one
snapshot dict, the later three-week and nine-week stamps overwrite it: the
entry stored for the 1-week horizon finally carries `games_played = 3`
(the nine-week counter) while the 1-week counter for the player is 1. -/
theorem games_played_stamp_shared_across_horizons :
    (aliasing_state.heap.getD 2 dfltStat).games_played = 3 ∧
    alookup aliasing_state.counters (Period.one_week, 1) = some 1 ∧
    alookup aliasing_state.counters (Period.nine_week, 1) = some 3 ∧
    alookup aliasing_state.accs (Period.one_week, 1) = some [1, 2] := by decide

/-- C3: for every record processed for a horizon, the flush guard of
`check_player_totals` holds (i.e. `write_averages` is invoked) if and only
if `week_id > 0` and `week_id mod horizon_length_in_weeks = 0`, where
`week_id = floor((game_date - horizon_flush_reference_date) / 7)`; in
particular no flush fires at `week_id = 0`.  The hypothesis
`period_date ≤ game_date` holds on every reachable call (the reference
date never moves past the current processing day), and under it the
source's truncating `int()` division agrees with the claim's floor. -/
theorem flush_exactly_at_week_multiples (period_date game_date : ℤ) (per : Period)
    (h : period_date ≤ game_date) :
    flush_condition period_date per game_date = true ↔
      (0 < Int.fdiv (game_date - period_date) 7 ∧
        Int.emod (Int.fdiv (game_date - period_date) 7) per.value = 0) := by
  have h0 : (0 : ℤ) ≤ game_date - period_date := by omega
  rw [Int.fdiv_eq_tdiv h0 (by norm_num)]
  simp [flush_condition, week_id_of]

/-- C3 witness: one week after the reference date the 1-week flush guard
fires (`week_id = 1 > 0` and `1 mod 1 = 0`). -/
theorem flush_exactly_at_week_multiples_witness :
    flush_condition 0 Period.one_week 7 = true :=
  (flush_exactly_at_week_multiples 0 7 Period.one_week (by norm_num)).mpr (by decide)

/-- C4: processing one record for a horizon always appends exactly one new
snapshot (index `idx`) to the player's accumulator; exactly when a flush
persisted a row (`saved = true`), the single oldest entry (the head) is
additionally dropped — never the whole accumulator — so the flush step
removes precisely one entry; and `saved` holds exactly when the flush
guard holds on a non-empty accumulator. -/
theorem check_player_totals_window (nrm : α → α) (now : ℤ) (heap : List (Stat α))
    (accs : List ((Period × ℕ) × List ℕ)) (period_date : ℤ) (per : Period) (idx : ℕ)
    (stat : Stat α) :
    alookup (check_player_totals nrm now heap accs period_date per idx stat).2.1
        (per, stat.player) =
      some ((if (check_player_totals nrm now heap accs period_date per idx stat).1
             then ((alookup accs (per, stat.player)).getD []).drop 1
             else (alookup accs (per, stat.player)).getD []) ++ [idx]) ∧
    (check_player_totals nrm now heap accs period_date per idx stat).1 =
      (flush_condition period_date per stat.game_date &&
        !((alookup accs (per, stat.player)).getD []).isEmpty) := by
  constructor
  · simp only [check_player_totals, alookup_aset]
  · simp only [check_player_totals]
    cases hc : flush_condition period_date per stat.game_date
    · simp
    · cases h2 : (alookup accs (per, stat.player)).getD [] with
      | nil => simp [h2, write_averages]
      | cons a l =>
        simp only [h2, Bool.true_and, List.isEmpty_cons, Bool.not_false, if_pos]
        exact write_averages_fst_isSome _ _ _ _ (by simp)

set_option maxRecDepth 100000 in
/-- C5 counterexample: the claim states the flush-and-persist step is
never invoked with an empty accumulator on a reachable execution.  In the
reachable 8-day season over `late_first_game_sched` (the player's first
game falls one week after the season start) the flush guard holds on the
very first record, `write_averages` is invoked with accumulator size 0
(exactly one such event occurs, for the 1-week horizon), and no row is
ever persisted. -/
theorem flush_invoked_on_empty_accumulator :
    (late_first_game_trace.events.filter
        (fun e => e.invoked && decide (e.accSize = 0))).length = 1 ∧
    late_first_game_trace.rows = [] := by decide

/-- C5 amended: `write_averages` can be invoked with an empty accumulator
on a reachable execution; such an invocation persists nothing, evicts
nothing, and reports `saved = false` (it is a harmless no-op, not a fatal
error). -/
theorem write_averages_empty_accumulator_noop (nrm : α → α) (now gd : ℤ) :
    write_averages nrm now gd [] = (none, []) := rfl

/-- C6: on `Done` the controller force-flushes: for every cache in which
each `(horizon, player)` entry still holds a non-empty accumulator, the
final loop persists exactly one `AverageSnapshot` row per entry —
`force_flush` applies `write_averages` to every entry unconditionally,
with no week-boundary test. -/
theorem done_flush_one_row_per_nonempty_entry (nrm : α → α) (now : ℤ) (st : EngineState α)
    (h : ∀ e ∈ st.accs, e.2 ≠ []) :
    ∃ rows, force_flush nrm now st = some rows ∧ rows.length = st.accs.length :=
  force_flush_list_length nrm now st.heap st.accs h

set_option maxRecDepth 100000 in
/-- C6 witness: the three-day season (nine-week window never fires)
persists no row during the season, and the force-flush at `Done` persists
exactly one row per `(horizon, player)` cache entry. -/
theorem done_flush_one_row_per_nonempty_entry_witness :
    short_season_run.2.rows = [] ∧
    ∃ rows, force_flush id 0 short_season_run.1 = some rows ∧
      rows.length = short_season_run.1.accs.length :=
  ⟨by decide, done_flush_one_row_per_nonempty_entry id 0 short_season_run.1 (by decide)⟩

/-- C7 counterexample: the claim states every numeric stat field of the
record — including minutes played — passes through `normalize` exactly
once.  For a record with one hour of playing time the stored
`minutes_played` is the raw minute count 60, while `normalize 60 < 60`, so
`normalize` was not applied to that field. -/
theorem minutes_played_not_normalized :
    (build_stat normalize 1 hourRow).minutes_played = 60 ∧ normalize 60 ≠ 60 := by
  constructor
  · norm_num [build_stat, hourRow]
  · have h30 : Real.arsinh 30 < 30 := by
      have h1 : (30 : ℝ) < Real.sinh 30 := Real.self_lt_sinh_iff.mpr (by norm_num)
      calc Real.arsinh 30 < Real.arsinh (Real.sinh 30) := Real.arsinh_lt_arsinh.mpr h1
        _ = 30 := Real.arsinh_sinh 30
    have hlog : (1 : ℝ) < Real.log 10 := by
      rw [Real.lt_log_iff_exp_lt (by norm_num)]
      calc Real.exp 1 < 2.7182818286 := Real.exp_one_lt_d9
        _ < 10 := by norm_num
    have hpos : (0 : ℝ) < Real.arsinh 30 := Real.arsinh_pos_iff.mpr (by norm_num)
    have he : normalize 60 = Real.arsinh 30 / Real.log 10 := by norm_num [normalize]
    rw [he]
    exact ne_of_lt (lt_trans (lt_trans (div_lt_self hpos hlog) h30) (by norm_num))

/-- C7 amended: `normalize(value)` is `asinh(value / 2)` divided by the
natural log of 10, and building the snapshot applies `normalize` exactly
once to every numeric stat field except `minutes_played`, which is stored
as the raw minute count `hours * 60 + minutes + seconds / 60`
(`total_rebounds` is `normalize` of the rebounds sum). -/
theorem build_stat_normalize_coverage (week : ℤ) (row : RawRow ℝ) :
    (build_stat normalize week row).minutes_played =
        (row.minutes_h : ℝ) * 60 + (row.minutes_m : ℝ) + (row.minutes_s : ℝ) / 60 ∧
    (build_stat normalize week row).total_rebounds =
        normalize (row.offensive_rebounds + row.defensive_rebounds) ∧
    (build_stat normalize week row).field_goals = normalize row.field_goals ∧
    (build_stat normalize week row).field_goal_attempts = normalize row.field_goal_attempts ∧
    (build_stat normalize week row).free_throw_attempts = normalize row.free_throw_attempts ∧
    (build_stat normalize week row).free_throws = normalize row.free_throws ∧
    (build_stat normalize week row).three_points = normalize row.three_points ∧
    (build_stat normalize week row).three_point_attempts = normalize row.three_point_attempts ∧
    (build_stat normalize week row).offensive_rebounds = normalize row.offensive_rebounds ∧
    (build_stat normalize week row).defensive_rebounds = normalize row.defensive_rebounds ∧
    (build_stat normalize week row).assists = normalize row.assists ∧
    (build_stat normalize week row).steels = normalize row.steels ∧
    (build_stat normalize week row).blocks = normalize row.blocks ∧
    (build_stat normalize week row).turn_overs = normalize row.turn_overs ∧
    (build_stat normalize week row).personal_fouls = normalize row.personal_fouls ∧
    (build_stat normalize week row).points_scored = normalize row.points_scored ∧
    (build_stat normalize week row).plus_minus = normalize row.plus_minus ∧
    (build_stat normalize week row).game_rating_score = normalize row.game_rating_score :=
  ⟨rfl, rfl, rfl, rfl, rfl, rfl, rfl, rfl, rfl, rfl, rfl, rfl, rfl, rfl, rfl, rfl, rfl, rfl⟩

/-- C8 counterexample: the claim states `center_score` depends on exactly
off/def rebounds, blocks, field goals and minutes played, and that the
guard and forward scores take minutes played among their inputs.  Two
inputs agreeing on all numeric stats (including minutes played) but
differing in `games_played` yield different center scores, and changing
only `minutes_played` leaves the guard and forward scores unchanged: the
composites read `games_played`, not `minutes_played`. -/
theorem composite_scores_use_games_played_not_minutes :
    calc_center_stats oneNums 1 ≠ calc_center_stats oneNums 2 ∧
    calc_guard_stats oneNums 1 = calc_guard_stats minutesVariant 1 ∧
    calc_forward_stats oneNums 1 = calc_forward_stats minutesVariant 1 := by
  refine ⟨?_, rfl, rfl⟩
  norm_num [calc_center_stats, oneNums]

/-- C8 amended: every persisted row carries the three composite scores as
`normalize` (the `nrm` parameter) applied to the source's combinations of
the row's own averaged fields, with `games_played` in place of the
specification's `minutes_played`:
`center = nrm(80*(dreb + oreb) + 45*blocks + 65*fg + 45*gp)`,
`guard = nrm(85*(ast + stl) + 3p*pts - to + 25*gp)` and
`forward = nrm(fg*pts + 40*3pa - 3p + 60*gp)`. -/
theorem write_averages_composite_formulas (nrm : α → α) (now gd : ℤ)
    (totals : List (Stat α)) :
    (write_averages nrm now gd totals).1.map
        (fun r => (r.center_player_stats, r.guard_player_stats, r.forward_player_stats)) =
      (write_averages nrm now gd totals).1.map (fun r =>
        (nrm (80 * (r.defensive_rebounds + r.offensive_rebounds) + 45 * r.blocks +
            65 * r.field_goals + 45 * (r.games_played : α)),
         nrm (85 * (r.assists + r.steels) + r.three_points * r.points_scored -
            r.turn_overs + 25 * (r.games_played : α)),
         nrm (r.field_goals * r.points_scored + 40 * r.three_point_attempts -
            r.three_points + 60 * (r.games_played : α)))) := by
  simp only [write_averages]
  split
  · rfl
  · simp [calc_center_stats, calc_guard_stats, calc_forward_stats]

/-- C9 counterexample: the claim states two flush runs over identical
accumulated snapshots produce rows identical in every non-key column.
Two runs over the same single-snapshot accumulator at clock values 0 and 1
persist rows whose `created_timestamp` columns are 0 and 1 respectively,
so the rows differ. -/
theorem persisted_row_timestamp_differs :
    ((write_averages (α := ℚ) id 0 0 [sampleStat 1]).1.map
      (fun r => r.created_timestamp)) = some 0 ∧
    ((write_averages (α := ℚ) id 1 0 [sampleStat 1]).1.map
      (fun r => r.created_timestamp)) = some 1 ∧
    (write_averages (α := ℚ) id 0 0 [sampleStat 1]).1 ≠
      (write_averages (α := ℚ) id 1 0 [sampleStat 1]).1 :=
  ⟨by decide, by decide, fun hcontra =>
    absurd (congrArg (Option.map (fun (r : Row ℚ) => r.created_timestamp)) hcontra)
      (by decide)⟩

/-- C9 amended: the flush step is deterministic in the accumulated
snapshots up to the `created_timestamp` column (which records the wall
clock at flush time): two runs over identical snapshots agree on every
other column of the persisted row and on the eviction they perform. -/
theorem write_averages_deterministic_up_to_timestamp (nrm : α → α) (now1 now2 gd : ℤ)
    (totals : List (Stat α)) :
    ((write_averages nrm now1 gd totals).1.map eraseTimestamp) =
      ((write_averages nrm now2 gd totals).1.map eraseTimestamp) ∧
    (write_averages nrm now1 gd totals).2 = (write_averages nrm now2 gd totals).2 := by
  constructor <;>
  · simp only [write_averages]
    rcases hacc : (totals.foldl wa_step ⟨0, gd, none⟩).acc with _ | a <;>
      simp [eraseTimestamp]

set_option maxRecDepth 100000 in
/-- C10 counterexample: the claim states that a season in which a player's
only snapshot is evicted at a flush and who has no later games reaches
`Done` with an empty accumulator and crashes on `totals[0]`.  In exactly
that scenario (`eviction_sched`: games on days 0 and 7 only, one mid-season
flush persists one row and evicts the day-0 snapshot) the day-7 snapshot is
appended after the eviction, every accumulator is non-empty at season end,
and the force-flush completes without an index error. -/
theorem eviction_leaves_accumulators_nonempty :
    eviction_run.2.rows.length = 1 ∧
    eviction_run.1.accs.all (fun e => !e.2.isEmpty) = true ∧
    (force_flush id 0 eviction_run.1).isSome = true ∧
    alookup eviction_run.1.accs (Period.one_week, 1) = some [1] := by decide

/-- C10 amended: the force-flush does read `totals[0]` unconditionally,
but for every season run (any schedule, any length) each accumulator held
by the cache is non-empty when the date loop finishes — `check_player_totals`
appends the current snapshot after any eviction — so the end-of-season
loop never hits the `IndexError`. -/
theorem season_end_force_flush_never_index_errors (nrm : α → α) (now start : ℤ)
    (numDays : ℕ) (sched : ℤ → List (RawRow α)) :
    (force_flush nrm now (calc_for_season nrm now start numDays sched).1).isSome = true := by
  obtain ⟨rows, hr, _⟩ := force_flush_list_length nrm now
    ((calc_for_season nrm now start numDays sched).1).heap
    ((calc_for_season nrm now start numDays sched).1).accs
    (season_accs_nonempty nrm now start numDays sched)
  simp [force_flush, hr]

end NBA
